import Mathlib

/- Verification of the Discord chatbot bridge service.

   Shallow embedding of the program logic of src/db.py, src/client.py and
   src/service.py. Python strings are modelled as Lean String, Python
   str.strip via character-list dropWhile, SQLite tables as Lean lists of
   row structures, and ISO-8601 timestamps as natural numbers measured in
   minutes (ISO strings compare lexicographically exactly as the instants
   they denote compare chronologically). -/

namespace DiscordService

/-- Python str.strip on a character list: drop leading and trailing
whitespace characters. -/
def stripChars (l : List Char) : List Char :=
  (((l.dropWhile Char.isWhitespace).reverse).dropWhile Char.isWhitespace).reverse

/-- Python str.strip, as used by db.py for id and scope normalization. -/
def pyStrip (s : String) : String :=
  String.mk (stripChars s.data)

/-- Python str.lower restricted to ASCII, as used by db._normalize_scope. -/
def pyLower (s : String) : String :=
  String.mk (s.data.map Char.toLower)

/-- db._normalize_id: a missing id becomes the empty string, a present id is
stripped of surrounding whitespace. -/
def normalize_id : Option String → String
  | none => ""
  | some s => pyStrip s

/-- db._normalize_scope: a falsy scope defaults to "channel"; the scope is
stripped and lowercased; any value other than "channel", "guild" or "dm"
collapses to "channel". -/
def normalize_scope (scope : Option String) : String :=
  let base := match scope with
    | none => "channel"
    | some s => if s = "" then "channel" else s
  let normalized := pyLower (pyStrip base)
  if normalized = "channel" ∨ normalized = "guild" ∨ normalized = "dm" then
    normalized
  else
    "channel"

/-- db._conversation_scope_values: normalize the (scope, guild, channel,
settings) tuple. Guild scope with a non-empty guild id clears the channel
component; dm scope with a non-empty guild id downgrades to channel scope. -/
def conversation_scope_values
    (scope guild_id channel_id settings_instance_id : Option String) :
    String × String × String × String :=
  let normalized_scope := normalize_scope scope
  let guild_value := normalize_id guild_id
  let channel_value := normalize_id channel_id
  let settings_value := normalize_id settings_instance_id
  if normalized_scope = "guild" ∧ guild_value ≠ "" then
    (normalized_scope, guild_value, "", settings_value)
  else if normalized_scope = "dm" ∧ guild_value ≠ "" then
    ("channel", guild_value, channel_value, settings_value)
  else
    (normalized_scope, guild_value, channel_value, settings_value)

/- Helper lemmas about stripping. -/

theorem dropWhile_idem {α : Type} (p : α → Bool) (l : List α) :
    (l.dropWhile p).dropWhile p = l.dropWhile p := by
  induction l with
  | nil => rfl
  | cons x xs ih =>
    by_cases h : p x
    · simp [List.dropWhile_cons, h, ih]
    · simp [List.dropWhile_cons, h]

theorem dropWhile_eq_self_of_head {α : Type} (p : α → Bool) (l : List α)
    (h : ∀ x, l.head? = some x → p x = false) : l.dropWhile p = l := by
  cases l with
  | nil => rfl
  | cons x xs =>
    have hx : p x = false := h x rfl
    simp [List.dropWhile_cons, hx]

theorem head?_dropWhile_false {α : Type} (p : α → Bool) (l : List α) (x : α)
    (h : (l.dropWhile p).head? = some x) : p x = false := by
  induction l with
  | nil => simp at h
  | cons y ys ih =>
    by_cases hy : p y
    · exact ih (by simpa [List.dropWhile_cons, hy] using h)
    · simp [List.dropWhile_cons, hy] at h
      subst h
      simpa using hy

theorem stripChars_idem (l : List Char) :
    stripChars (stripChars l) = stripChars l := by
  unfold stripChars
  set ws := Char.isWhitespace
  set a := l.dropWhile ws with ha
  set b := a.reverse.dropWhile ws with hb
  have hinner : b.reverse.dropWhile ws = b.reverse := by
    apply dropWhile_eq_self_of_head
    intro x hx
    have hsuf : b <:+ a.reverse := by rw [hb]; exact List.dropWhile_suffix ws
    have hpre : b.reverse <+: a := List.reverse_suffix.mp (by simpa using hsuf)
    obtain ⟨tl, htl⟩ := hpre
    have hha : a.head? = some x := by
      rw [← htl, List.head?_append, hx]; rfl
    exact head?_dropWhile_false ws l x (by rw [← ha]; exact hha)
  rw [hinner, List.reverse_reverse, hb, dropWhile_idem]

theorem pyStrip_idem (s : String) : pyStrip (pyStrip s) = pyStrip s := by
  simp [pyStrip, stripChars_idem]

theorem normalize_id_idem (v : Option String) :
    normalize_id (some (normalize_id v)) = normalize_id v := by
  cases v with
  | none => rfl
  | some s => simp [normalize_id, pyStrip_idem]

theorem normalize_scope_mem (scope : Option String) :
    normalize_scope scope = "channel" ∨ normalize_scope scope = "guild" ∨
      normalize_scope scope = "dm" := by
  dsimp only [normalize_scope]
  split
  next h => exact h
  next => left; rfl

theorem normalize_scope_fixed (k : String)
    (hk : k = "channel" ∨ k = "guild" ∨ k = "dm") :
    normalize_scope (some k) = k := by
  rcases hk with h | h | h <;> subst h <;> decide

theorem cvs_normalized (s0 g0 c0 t0 : String)
    (hs : s0 = "channel" ∨ s0 = "guild" ∨ s0 = "dm")
    (hg : normalize_id (some g0) = g0)
    (hc : normalize_id (some c0) = c0)
    (ht : normalize_id (some t0) = t0) :
    conversation_scope_values (some s0) (some g0) (some c0) (some t0) =
      if s0 = "guild" ∧ g0 ≠ "" then (s0, g0, "", t0)
      else if s0 = "dm" ∧ g0 ≠ "" then ("channel", g0, c0, t0)
      else (s0, g0, c0, t0) := by
  have hns : normalize_scope (some s0) = s0 := normalize_scope_fixed s0 hs
  simp only [conversation_scope_values, hns, hg, hc, ht]

/-- C3: For every scope tuple whose scope-kind is one of the three legal
kinds, normalization with scope-kind "guild" and a non-empty guild id yields
an empty channel component; normalization with scope-kind "dm" and a
non-empty guild id yields scope-kind "channel"; in all other cases guild,
channel and scope-kind are left as given, after id trimming. -/
theorem C3_scope_normalization_cases (k : String) (g c t : Option String)
    (hk : k = "channel" ∨ k = "guild" ∨ k = "dm") :
    (k = "guild" → normalize_id g ≠ "" →
      conversation_scope_values (some k) g c t =
        ("guild", normalize_id g, "", normalize_id t)) ∧
    (k = "dm" → normalize_id g ≠ "" →
      conversation_scope_values (some k) g c t =
        ("channel", normalize_id g, normalize_id c, normalize_id t)) ∧
    (normalize_id g = "" ∨ k = "channel" →
      conversation_scope_values (some k) g c t =
        (k, normalize_id g, normalize_id c, normalize_id t)) := by
  have hns : normalize_scope (some k) = k := normalize_scope_fixed k hk
  refine ⟨?_, ?_, ?_⟩
  · intro hkg hg
    subst hkg
    simp [conversation_scope_values, hns, hg]
  · intro hkd hg
    subst hkd
    simp [conversation_scope_values, hns, hg]
  · intro hor
    rcases hor with hg | hkc
    · simp [conversation_scope_values, hns, hg]
    · subst hkc
      simp [conversation_scope_values, hns]

/-- Witness for C3 at the concrete tuple (guild, " g1 ", "c1", "t1"). -/
theorem C3_scope_normalization_cases_witness :
    ("guild" = "channel" ∨ "guild" = "guild" ∨ "guild" = "dm") ∧
    (("guild" = "guild" → normalize_id (some " g1 ") ≠ "" →
      conversation_scope_values (some "guild") (some " g1 ") (some "c1")
          (some "t1") =
        ("guild", normalize_id (some " g1 "), "", normalize_id (some "t1"))) ∧
     ("guild" = "dm" → normalize_id (some " g1 ") ≠ "" →
      conversation_scope_values (some "guild") (some " g1 ") (some "c1")
          (some "t1") =
        ("channel", normalize_id (some " g1 "), normalize_id (some "c1"),
          normalize_id (some "t1"))) ∧
     (normalize_id (some " g1 ") = "" ∨ "guild" = "channel" →
      conversation_scope_values (some "guild") (some " g1 ") (some "c1")
          (some "t1") =
        ("guild", normalize_id (some " g1 "), normalize_id (some "c1"),
          normalize_id (some "t1")))) :=
  ⟨by decide,
   C3_scope_normalization_cases "guild" (some " g1 ") (some "c1") (some "t1")
     (by decide)⟩

/-- C4: scope normalization is idempotent: feeding the normalized tuple back
into conversation_scope_values returns it unchanged. -/
theorem C4_scope_normalization_idempotent (scope g c t : Option String) :
    conversation_scope_values
        (some (conversation_scope_values scope g c t).1)
        (some (conversation_scope_values scope g c t).2.1)
        (some (conversation_scope_values scope g c t).2.2.1)
        (some (conversation_scope_values scope g c t).2.2.2) =
      conversation_scope_values scope g c t := by
  have hs := normalize_scope_mem scope
  have hg := normalize_id_idem g
  have hc := normalize_id_idem c
  have ht := normalize_id_idem t
  have h1 : conversation_scope_values scope g c t =
      if normalize_scope scope = "guild" ∧ normalize_id g ≠ "" then
        (normalize_scope scope, normalize_id g, "", normalize_id t)
      else if normalize_scope scope = "dm" ∧ normalize_id g ≠ "" then
        ("channel", normalize_id g, normalize_id c, normalize_id t)
      else
        (normalize_scope scope, normalize_id g, normalize_id c,
          normalize_id t) := rfl
  rw [h1]
  by_cases h2 : normalize_scope scope = "guild" ∧ normalize_id g ≠ ""
  · rw [if_pos h2]
    dsimp only
    rw [cvs_normalized _ _ _ _ hs hg (by decide) ht, if_pos h2]
  · by_cases h3 : normalize_scope scope = "dm" ∧ normalize_id g ≠ ""
    · rw [if_neg h2, if_pos h3]
      dsimp only
      rw [cvs_normalized "channel" _ _ _ (by left; rfl) hg hc ht]
      simp
    · rw [if_neg h2, if_neg h3]
      dsimp only
      rw [cvs_normalized _ _ _ _ hs hg hc ht, if_neg h2, if_neg h3]

/- Reply chunking (service.py line 294):
   chunks = [reply_text[i:i + 1900] for i in range(0, len(reply_text), 1900)] -/

/-- Model of the reply chunking list comprehension in service._handle_message:
successive 1900-character slices of the reply text. -/
def pyChunks : List Char → List (List Char)
  | [] => []
  | x :: xs => ((x :: xs).take 1900) :: pyChunks ((x :: xs).drop 1900)
termination_by l => l.length
decreasing_by simp [List.length_drop]; omega

theorem pyChunks_flatten (l : List Char) : (pyChunks l).flatten = l := by
  induction l using pyChunks.induct with
  | case1 => rw [pyChunks]; rfl
  | case2 x xs ih =>
    rw [pyChunks]
    simp only [List.flatten_cons, ih, List.take_append_drop]

theorem pyChunks_chunk_le (l : List Char) :
    ∀ c ∈ pyChunks l, c.length ≤ 1900 := by
  induction l using pyChunks.induct with
  | case1 => intro c hc; rw [pyChunks] at hc; simp at hc
  | case2 x xs ih =>
    intro c hc
    rw [pyChunks] at hc
    rcases List.mem_cons.mp hc with h | h
    · subst h
      simp
    · exact ih c h

theorem pyChunks_count (l : List Char) :
    (pyChunks l).length = (l.length + 1899) / 1900 := by
  induction l using pyChunks.induct with
  | case1 => rw [pyChunks]; rfl
  | case2 x xs ih =>
    rw [pyChunks]
    simp only [List.length_cons, ih, List.length_drop]
    omega

/-- C7: for every non-empty reply text, chunking produces slices of length
at most 1900 whose in-order concatenation is the original text, and a
5000-character reply yields exactly 3 chunks. -/
theorem C7_reply_chunking (l : List Char) (hne : l ≠ []) :
    (∀ c ∈ pyChunks l, c.length ≤ 1900) ∧
    (pyChunks l).flatten = l ∧
    (l.length = 5000 → (pyChunks l).length = 3) := by
  refine ⟨pyChunks_chunk_le l, pyChunks_flatten l, ?_⟩
  intro h5
  rw [pyChunks_count, h5]

theorem replicate5000_ne_nil : List.replicate 5000 'a' ≠ [] := by
  intro h
  have hlen := congrArg List.length h
  rw [List.length_replicate, List.length_nil] at hlen
  exact absurd hlen (by decide)

/-- Witness for C7 at a concrete 5000-character reply. -/
theorem C7_reply_chunking_witness :
    (List.replicate 5000 'a' ≠ []) ∧
    ((∀ c ∈ pyChunks (List.replicate 5000 'a'), c.length ≤ 1900) ∧
     (pyChunks (List.replicate 5000 'a')).flatten = List.replicate 5000 'a' ∧
     ((List.replicate 5000 'a').length = 5000 →
       (pyChunks (List.replicate 5000 'a')).length = 3)) :=
  ⟨replicate5000_ne_nil, C7_reply_chunking _ replicate5000_ne_nil⟩

/- client.build_message_payload: ordered JSON object assembly. -/

/-- JSON values carried in the outbound payload. -/
inductive JVal where
  | jNull
  | jStr (s : String)
  | jObj (fields : List (String × JVal))
  | jArr (elems : List JVal)

/-- Required fields are emitted even when the Python value is None. -/
def optToJ : Option String → JVal
  | none => JVal.jNull
  | some s => JVal.jStr s

/-- One optional string field: emitted only when the value is truthy in
Python (present and non-empty). -/
def optStrField (k : String) : Option String → List (String × JVal)
  | none => []
  | some s => if s = "" then [] else [(k, JVal.jStr s)]

/-- One optional object field: emitted only when the dict is truthy. -/
def optObjField (k : String) : Option (List (String × JVal)) →
    List (String × JVal)
  | none => []
  | some [] => []
  | some f => [(k, JVal.jObj f)]

/-- One optional array field: emitted only when the list is truthy. -/
def optArrField (k : String) : Option (List JVal) → List (String × JVal)
  | none => []
  | some [] => []
  | some a => [(k, JVal.jArr a)]

/-- client.build_message_payload: the five required fields in insertion
order, then each optional field appended only when its value is truthy. -/
def build_message_payload (user_id : String)
    (target_user_id settings_instance_id service_secret : Option String)
    (guild_id channel_id message_id : Option String) (text : String)
    (rag_collection_id model persona_id : Option String)
    (config : Option (List (String × JVal)))
    (chat_history : Option (List JVal)) : List (String × JVal) :=
  [("user_id", JVal.jStr user_id), ("guild_id", optToJ guild_id),
   ("channel_id", optToJ channel_id), ("message_id", optToJ message_id),
   ("text", JVal.jStr text)]
  ++ optStrField "target_user_id" target_user_id
  ++ optStrField "settings_instance_id" settings_instance_id
  ++ optStrField "service_secret" service_secret
  ++ optStrField "rag_collection_id" rag_collection_id
  ++ optStrField "model" model
  ++ optStrField "persona_id" persona_id
  ++ optObjField "config" config
  ++ optArrField "chat_history" chat_history

theorem exists_mem_optStrField (k k1 : String) (v : Option String) :
    (∃ x, (k, x) ∈ optStrField k1 v) ↔
      k = k1 ∧ ∃ s, v = some s ∧ s ≠ "" := by
  cases v with
  | none => simp [optStrField]
  | some s =>
    by_cases h : s = ""
    · simp [optStrField, h]
    · simp [optStrField, h]

theorem exists_mem_optObjField (k k1 : String)
    (v : Option (List (String × JVal))) :
    (∃ x, (k, x) ∈ optObjField k1 v) ↔
      k = k1 ∧ ∃ f, v = some f ∧ f ≠ [] := by
  cases v with
  | none => simp [optObjField]
  | some f =>
    cases f with
    | nil => simp [optObjField]
    | cons y ys => simp [optObjField]

theorem exists_mem_optArrField (k k1 : String) (v : Option (List JVal)) :
    (∃ x, (k, x) ∈ optArrField k1 v) ↔
      k = k1 ∧ ∃ a, v = some a ∧ a ≠ [] := by
  cases v with
  | none => simp [optArrField]
  | some a =>
    cases a with
    | nil => simp [optArrField]
    | cons y ys => simp [optArrField]

theorem optStrField_val (k1 k : String) (v : Option String) (j : JVal)
    (h : (k, j) ∈ optStrField k1 v) : ∃ s, j = JVal.jStr s ∧ s ≠ "" := by
  cases v with
  | none => simp [optStrField] at h
  | some s =>
    by_cases hs : s = ""
    · simp [optStrField, hs] at h
    · simp [optStrField, hs] at h
      exact ⟨s, h.2, hs⟩

theorem optObjField_val (k1 k : String) (v : Option (List (String × JVal)))
    (j : JVal) (h : (k, j) ∈ optObjField k1 v) :
    ∃ f, j = JVal.jObj f ∧ f ≠ [] := by
  cases v with
  | none => simp [optObjField] at h
  | some f =>
    cases f with
    | nil => simp [optObjField] at h
    | cons y ys =>
      simp [optObjField] at h
      exact ⟨y :: ys, h.2, by simp⟩

theorem optArrField_val (k1 k : String) (v : Option (List JVal)) (j : JVal)
    (h : (k, j) ∈ optArrField k1 v) : ∃ a, j = JVal.jArr a ∧ a ≠ [] := by
  cases v with
  | none => simp [optArrField] at h
  | some a =>
    cases a with
    | nil => simp [optArrField] at h
    | cons y ys =>
      simp [optArrField] at h
      exact ⟨y :: ys, h.2, by simp⟩

/-- C6: the assembled payload always contains the five required fields, it
contains each optional field exactly when the corresponding value is
present and non-empty, and no optional field ever carries a null, empty
string, empty object or empty array value. -/
theorem C6_payload_optional_fields (u : String)
    (tgt sid sec g ch m : Option String) (txt : String)
    (rag mdl per : Option String) (cfg : Option (List (String × JVal)))
    (hist : Option (List JVal)) :
    let p := build_message_payload u tgt sid sec g ch m txt rag mdl per
      cfg hist
    let keys := p.map Prod.fst
    ("user_id" ∈ keys ∧ "guild_id" ∈ keys ∧ "channel_id" ∈ keys ∧
      "message_id" ∈ keys ∧ "text" ∈ keys) ∧
    (("target_user_id" ∈ keys) ↔ ∃ s, tgt = some s ∧ s ≠ "") ∧
    (("settings_instance_id" ∈ keys) ↔ ∃ s, sid = some s ∧ s ≠ "") ∧
    (("service_secret" ∈ keys) ↔ ∃ s, sec = some s ∧ s ≠ "") ∧
    (("rag_collection_id" ∈ keys) ↔ ∃ s, rag = some s ∧ s ≠ "") ∧
    (("model" ∈ keys) ↔ ∃ s, mdl = some s ∧ s ≠ "") ∧
    (("persona_id" ∈ keys) ↔ ∃ s, per = some s ∧ s ≠ "") ∧
    (("config" ∈ keys) ↔ ∃ f, cfg = some f ∧ f ≠ []) ∧
    (("chat_history" ∈ keys) ↔ ∃ a, hist = some a ∧ a ≠ []) ∧
    (∀ k j, (k, j) ∈ p →
      (j = JVal.jNull ∨ j = JVal.jStr "" ∨ j = JVal.jObj [] ∨
        j = JVal.jArr []) →
      k ∈ ["user_id", "guild_id", "channel_id", "message_id", "text"]) := by
  intro p keys
  refine ⟨?_, ?_, ?_, ?_, ?_, ?_, ?_, ?_, ?_, ?_⟩
  case _ =>
    simp [keys, p, build_message_payload]
  case _ =>
    simp [keys, p, build_message_payload, exists_mem_optStrField,
      exists_mem_optObjField, exists_mem_optArrField]
  case _ =>
    simp [keys, p, build_message_payload, exists_mem_optStrField,
      exists_mem_optObjField, exists_mem_optArrField]
  case _ =>
    simp [keys, p, build_message_payload, exists_mem_optStrField,
      exists_mem_optObjField, exists_mem_optArrField]
  case _ =>
    simp [keys, p, build_message_payload, exists_mem_optStrField,
      exists_mem_optObjField, exists_mem_optArrField]
  case _ =>
    simp [keys, p, build_message_payload, exists_mem_optStrField,
      exists_mem_optObjField, exists_mem_optArrField]
  case _ =>
    simp [keys, p, build_message_payload, exists_mem_optStrField,
      exists_mem_optObjField, exists_mem_optArrField]
  case _ =>
    simp [keys, p, build_message_payload, exists_mem_optStrField,
      exists_mem_optObjField, exists_mem_optArrField]
  case _ =>
    simp [keys, p, build_message_payload, exists_mem_optStrField,
      exists_mem_optObjField, exists_mem_optArrField]
  case _ =>
    intro k j hmem hempty
    simp only [p, build_message_payload, List.mem_append] at hmem
    rcases hmem with ((((((((hb | h1) | h2) | h3) | h4) | h5) | h6) | h7) |
      h8)
    · simp only [List.mem_cons, Prod.mk.injEq, List.not_mem_nil,
        or_false] at hb
      rcases hb with ⟨h, _⟩ | ⟨h, _⟩ | ⟨h, _⟩ | ⟨h, _⟩ | ⟨h, _⟩ <;> simp [h]
    · obtain ⟨s, hj, hs⟩ := optStrField_val _ _ _ _ h1
      subst hj
      rcases hempty with h | h | h | h <;> simp_all
    · obtain ⟨s, hj, hs⟩ := optStrField_val _ _ _ _ h2
      subst hj
      rcases hempty with h | h | h | h <;> simp_all
    · obtain ⟨s, hj, hs⟩ := optStrField_val _ _ _ _ h3
      subst hj
      rcases hempty with h | h | h | h <;> simp_all
    · obtain ⟨s, hj, hs⟩ := optStrField_val _ _ _ _ h4
      subst hj
      rcases hempty with h | h | h | h <;> simp_all
    · obtain ⟨s, hj, hs⟩ := optStrField_val _ _ _ _ h5
      subst hj
      rcases hempty with h | h | h | h <;> simp_all
    · obtain ⟨s, hj, hs⟩ := optStrField_val _ _ _ _ h6
      subst hj
      rcases hempty with h | h | h | h <;> simp_all
    · obtain ⟨f, hj, hf⟩ := optObjField_val _ _ _ _ h7
      subst hj
      rcases hempty with h | h | h | h <;> simp_all
    · obtain ⟨a, hj, ha⟩ := optArrField_val _ _ _ _ h8
      subst hj
      rcases hempty with h | h | h | h <;> simp_all

/- Admission filtering (service._handle_message, lines 157-186). -/

/-- A Discord user as seen by the message handler: an id and the bot flag
that discord.py exposes as author.bot. -/
structure DUser where
  id : Nat
  isBot : Bool
deriving DecidableEq

/-- The identity the Discord client assigns to the bot itself; a client
logged in with a bot token always carries the bot flag. -/
def botSelf (botId : Nat) : DUser := ⟨botId, true⟩

/-- An inbound gateway message event (the fields _handle_message reads). -/
structure Event where
  author : DUser
  content : String
  guild : Option String
  channel : String
  mentions : List Nat
deriving DecidableEq

/-- The slice of BOT_CONFIG the admission checks read. -/
structure AdmissionConfig where
  mention_only : Bool
  guild_allowlist : List String
  channel_allowlist : List String
deriving DecidableEq

/-- The guild allowlist check: blocks when the allowlist is non-empty, the
message has a guild, and that guild id is not listed. -/
def guildBlocked (allow : List String) (guild : Option String) : Bool :=
  !allow.isEmpty &&
    (match guild with
     | none => false
     | some gid => !(allow.contains gid))

/-- The channel allowlist check: blocks when the allowlist is non-empty and
the channel id is not listed. -/
def channelBlocked (allow : List String) (channel : String) : Bool :=
  !allow.isEmpty && !(allow.contains channel)

/-- The raw mention form of the bot user. -/
def mentionTag (botId : Nat) : String := "<@" ++ toString botId ++ ">"

/-- The nickname mention form of the bot user. -/
def mentionNickTag (botId : Nat) : String := "<@!" ++ toString botId ++ ">"

/-- The admission pipeline of service._handle_message: reject bot authors,
reject when no client user is available, apply the mention-only gate, the
guild and channel allowlists, strip mention text, and reject empty content.
Returns the cleaned text when the message is admitted. -/
def admission (cfg : AdmissionConfig) (client : Option Nat) (ev : Event) :
    Option String :=
  if ev.author.isBot then none
  else
    match client with
    | none => none
    | some botId =>
      if cfg.mention_only && !(ev.mentions.contains botId) then none
      else if guildBlocked cfg.guild_allowlist ev.guild then none
      else if channelBlocked cfg.channel_allowlist ev.channel then none
      else
        let content :=
          if cfg.mention_only then
            pyStrip ((ev.content.replace (mentionTag botId) "").replace
              (mentionNickTag botId) "")
          else ev.content
        if content = "" then none else some content

/-- C8: a message authored by the bot's own identity is rejected, as is any
message authored by another bot, for every configuration (in particular
with both allowlists empty and mention-only disabled) and every client
state. -/
theorem C8_bot_author_rejected (botId : Nat) (cfg : AdmissionConfig)
    (client : Option Nat) (ev : Event)
    (h : ev.author = botSelf botId ∨ ev.author.isBot = true) :
    admission cfg client ev = none := by
  have hbot : ev.author.isBot = true := by
    rcases h with h | h
    · rw [h]; rfl
    · exact h
  simp [admission, hbot]

/-- A concrete self-authored event used to witness C8. -/
def selfEvent : Event :=
  ⟨botSelf 42, "hello", none, "c1", []⟩

/-- A concrete configuration with empty allowlists and mention-only off. -/
def openConfig : AdmissionConfig :=
  ⟨false, [], []⟩

/-- Witness for C8: a self-authored message with empty allowlists and
mention-only disabled is rejected. -/
theorem C8_bot_author_rejected_witness :
    (selfEvent.author = botSelf 42 ∨ selfEvent.author.isBot = true) ∧
    admission openConfig (some 42) selfEvent = none :=
  ⟨Or.inl rfl, C8_bot_author_rejected 42 openConfig (some 42) selfEvent
    (Or.inl rfl)⟩

/- Conversation store (db.get_or_create_conversation). -/

/-- A row of the discord_conversation table. -/
structure ConvRow where
  id : String
  user_id : String
  discord_user_id : String
  discord_username : String
  guild_id : String
  channel_id : String
  settings_instance_id : String
  scope : String
  created_at : String
  updated_at : String
deriving DecidableEq

/-- The WHERE clause of the conversation lookup: equality on the normalized
(discord user, guild, channel, settings) tuple. -/
def convMatches (du g c s : String) (r : ConvRow) : Bool :=
  r.discord_user_id == du && r.guild_id == g && r.channel_id == c &&
    r.settings_instance_id == s

/-- The per-row effect of the UPDATE issued when the lookup finds a row:
refresh updated_at, display name and scope on the row with the found id. -/
def updRow (cid now un ns : String) (r : ConvRow) : ConvRow :=
  if r.id == cid then
    { r with updated_at := now, discord_username := un, scope := ns }
  else r

/-- The UPDATE statement over the whole table. -/
def updateConv (cid now un ns : String) (db : List ConvRow) : List ConvRow :=
  db.map (updRow cid now un ns)

/-- The lookup predicate of get_or_create_conversation, phrased on the raw
arguments: the row matches the normalized identity tuple. -/
def convPred (duid : String)
    (guild_id channel_id settings_instance_id scope : Option String) :
    ConvRow → Bool :=
  convMatches (normalize_id (some duid))
    (conversation_scope_values scope guild_id channel_id
      settings_instance_id).2.1
    (conversation_scope_values scope guild_id channel_id
      settings_instance_id).2.2.1
    (conversation_scope_values scope guild_id channel_id
      settings_instance_id).2.2.2

/-- db.get_or_create_conversation over an explicit table state. The fresh
uuid and the current timestamp are explicit arguments; SELECT with LIMIT 1
is the first list match; INSERT appends. Returns the conversation id
together with the updated table. -/
def get_or_create_conversation (db : List ConvRow) (freshId now : String)
    (user_id discord_user_id : String) (discord_username : Option String)
    (guild_id channel_id settings_instance_id scope : Option String) :
    String × List ConvRow :=
  let du := normalize_id (some discord_user_id)
  let un := normalize_id discord_username
  let v := conversation_scope_values scope guild_id channel_id
    settings_instance_id
  match db.find? (convMatches du v.2.1 v.2.2.1 v.2.2.2) with
  | some row => (row.id, updateConv row.id now un v.1 db)
  | none =>
    (freshId,
      db ++ [⟨freshId, user_id, du, un, v.2.1, v.2.2.1, v.2.2.2, v.1,
        now, now⟩])

theorem updRow_matches (cid now un ns du g c s : String) (r : ConvRow) :
    convMatches du g c s (updRow cid now un ns r) = convMatches du g c s r := by
  unfold updRow
  split <;> rfl

theorem updRow_id (cid now un ns : String) (r : ConvRow) :
    (updRow cid now un ns r).id = r.id := by
  unfold updRow
  split <;> rfl

theorem find?_updateConv (p : ConvRow → Bool) (cid now un ns : String)
    (db : List ConvRow) (hp : ∀ r, p (updRow cid now un ns r) = p r) :
    (updateConv cid now un ns db).find? p =
      (db.find? p).map (updRow cid now un ns) := by
  unfold updateConv
  rw [List.find?_map]
  have hfun : p ∘ updRow cid now un ns = p := funext hp
  rw [hfun]

theorem countP_updateConv (p : ConvRow → Bool) (cid now un ns : String)
    (db : List ConvRow) (hp : ∀ r, p (updRow cid now un ns r) = p r) :
    (updateConv cid now un ns db).countP p = db.countP p := by
  unfold updateConv
  rw [List.countP_map]
  have hfun : p ∘ updRow cid now un ns = p := funext hp
  rw [hfun]

theorem goc_eq (db : List ConvRow) (f n uid duid : String)
    (dun g c s sc : Option String) :
    get_or_create_conversation db f n uid duid dun g c s sc =
      (match db.find? (convPred duid g c s sc) with
       | some row =>
         (row.id, updateConv row.id n (normalize_id dun)
           (conversation_scope_values sc g c s).1 db)
       | none =>
         (f, db ++ [⟨f, uid, normalize_id (some duid), normalize_id dun,
           (conversation_scope_values sc g c s).2.1,
           (conversation_scope_values sc g c s).2.2.1,
           (conversation_scope_values sc g c s).2.2.2,
           (conversation_scope_values sc g c s).1, n, n⟩]) : String × List ConvRow) :=
  rfl

/-- C1: with at most one conversation row for the normalized identity tuple,
two sequential get_or_create_conversation calls with identical arguments
return the same conversation id, and afterwards the table still holds at
most one row for that tuple. -/
theorem C1_find_or_create_stable (db : List ConvRow)
    (f1 n1 f2 n2 uid duid : String) (dun : Option String)
    (g c s sc : Option String)
    (hinv : db.countP (convPred duid g c s sc) ≤ 1) :
    (get_or_create_conversation
        (get_or_create_conversation db f1 n1 uid duid dun g c s sc).2
        f2 n2 uid duid dun g c s sc).1 =
      (get_or_create_conversation db f1 n1 uid duid dun g c s sc).1 ∧
    ((get_or_create_conversation
        (get_or_create_conversation db f1 n1 uid duid dun g c s sc).2
        f2 n2 uid duid dun g c s sc).2).countP
      (convPred duid g c s sc) ≤ 1 := by
  have hmatch : ∀ cid now un ns r,
      convPred duid g c s sc (updRow cid now un ns r) =
        convPred duid g c s sc r := by
    intro cid now un ns r
    exact updRow_matches cid now un ns _ _ _ _ r
  cases hfind : db.find? (convPred duid g c s sc) with
  | some row =>
    rw [goc_eq db f1 n1, hfind]
    have hfind2 : (updateConv row.id n1 (normalize_id dun)
        (conversation_scope_values sc g c s).1 db).find?
        (convPred duid g c s sc) =
        some (updRow row.id n1 (normalize_id dun)
          (conversation_scope_values sc g c s).1 row) := by
      rw [find?_updateConv _ _ _ _ _ _ (hmatch _ _ _ _), hfind]
      rfl
    rw [goc_eq _ f2 n2, hfind2]
    constructor
    · exact updRow_id _ _ _ _ row
    · rw [countP_updateConv _ _ _ _ _ _ (hmatch _ _ _ _),
        countP_updateConv _ _ _ _ _ _ (hmatch _ _ _ _)]
      exact hinv
  | none =>
    have hzero : db.countP (convPred duid g c s sc) = 0 :=
      List.countP_eq_zero.mpr (List.find?_eq_none.mp hfind)
    rw [goc_eq db f1 n1, hfind]
    have hnew : convPred duid g c s sc
        ⟨f1, uid, normalize_id (some duid), normalize_id dun,
          (conversation_scope_values sc g c s).2.1,
          (conversation_scope_values sc g c s).2.2.1,
          (conversation_scope_values sc g c s).2.2.2,
          (conversation_scope_values sc g c s).1, n1, n1⟩ = true := by
      simp [convPred, convMatches]
    have hfind2 : (db ++ [(⟨f1, uid, normalize_id (some duid),
        normalize_id dun,
        (conversation_scope_values sc g c s).2.1,
        (conversation_scope_values sc g c s).2.2.1,
        (conversation_scope_values sc g c s).2.2.2,
        (conversation_scope_values sc g c s).1, n1, n1⟩ : ConvRow)]).find?
        (convPred duid g c s sc) =
        some ⟨f1, uid, normalize_id (some duid), normalize_id dun,
          (conversation_scope_values sc g c s).2.1,
          (conversation_scope_values sc g c s).2.2.1,
          (conversation_scope_values sc g c s).2.2.2,
          (conversation_scope_values sc g c s).1, n1, n1⟩ := by
      rw [List.find?_append, hfind]
      simp [List.find?_cons, hnew]
    rw [goc_eq _ f2 n2, hfind2]
    constructor
    · rfl
    · rw [countP_updateConv _ _ _ _ _ _ (hmatch _ _ _ _),
        List.countP_append, hzero]
      simp [hnew]

/-- Witness for C1 on an initially empty conversation table. -/
theorem C1_find_or_create_stable_witness :
    (([] : List ConvRow).countP
      (convPred "du" (some "g1") (some "c1") (some "s1")
        (some "channel")) ≤ 1) ∧
    ((get_or_create_conversation
        (get_or_create_conversation [] "id1" "t1" "u" "du" (some "name")
          (some "g1") (some "c1") (some "s1") (some "channel")).2
        "id2" "t2" "u" "du" (some "name")
        (some "g1") (some "c1") (some "s1") (some "channel")).1 =
      (get_or_create_conversation [] "id1" "t1" "u" "du" (some "name")
        (some "g1") (some "c1") (some "s1") (some "channel")).1 ∧
    ((get_or_create_conversation
        (get_or_create_conversation [] "id1" "t1" "u" "du" (some "name")
          (some "g1") (some "c1") (some "s1") (some "channel")).2
        "id2" "t2" "u" "du" (some "name")
        (some "g1") (some "c1") (some "s1") (some "channel")).2).countP
      (convPred "du" (some "g1") (some "c1") (some "s1")
        (some "channel")) ≤ 1) :=
  ⟨by decide,
   C1_find_or_create_stable [] "id1" "t1" "id2" "t2" "u" "du" (some "name")
     (some "g1") (some "c1") (some "s1") (some "channel") (by decide)⟩

/- Message history (db.insert_message rows, db.get_recent_history). -/

/-- A row of the discord_message table, restricted to the columns that
get_recent_history touches. Timestamps are modelled in minutes. -/
structure MsgRow where
  conversation_id : String
  role : String
  content : String
  created_at : Nat
deriving DecidableEq

/-- A Python value supplied for a numeric parameter of get_recent_history:
an integer, a truthy value that int() rejects, or None. -/
inductive NumArg where
  | num (n : Int)
  | nonNumeric
  | noneV
deriving DecidableEq

/-- Python truthiness: 0 and None are falsy, a non-numeric truthy value
(such as a non-empty string) is truthy. -/
def NumArg.truthy : NumArg → Bool
  | .num n => n != 0
  | .nonNumeric => true
  | .noneV => false

/-- The computed LIMIT source value: int(max_turns), with None and
conversion failures collapsing to 0. -/
def NumArg.toLimit : NumArg → Int
  | .num n => n
  | .nonNumeric => 0
  | .noneV => 0

/-- The computed age value: int(max_age_minutes), with conversion failures
collapsing to 0. -/
def NumArg.toAge : NumArg → Int
  | .num n => n
  | .nonNumeric => 0
  | .noneV => 0

/-- ORDER BY created_at DESC. -/
def createdDesc (a b : MsgRow) : Prop := b.created_at ≤ a.created_at

instance : DecidableRel createdDesc := fun a b => Nat.decLe _ _

instance : IsTotal MsgRow createdDesc :=
  ⟨fun a b => Nat.le_total b.created_at a.created_at⟩

instance : IsTrans MsgRow createdDesc :=
  ⟨fun _ _ _ h1 h2 => Nat.le_trans h2 h1⟩

/-- The SQL SELECT of get_recent_history: rows of the conversation, with
the age cutoff applied only when max_age_minutes is truthy and positive,
ordered by created_at descending (a deterministic stable sort stands in
for the SQLite ordering) and cut by LIMIT. -/
def selectedRowsDesc (db : List MsgRow) (conversation_id : String)
    (max_age_minutes : NumArg) (now : Nat) (limit : Nat) : List MsgRow :=
  (List.insertionSort createdDesc
    (if max_age_minutes.truthy ∧ 0 < max_age_minutes.toAge then
      (db.filter (fun r => r.conversation_id == conversation_id)).filter
        (fun r => now - max_age_minutes.toAge.toNat ≤ r.created_at)
     else
      db.filter (fun r => r.conversation_id == conversation_id))).take limit

/-- db.get_recent_history: empty conversation id or a non-positive or
non-numeric max_turns yields the empty list; otherwise the most recent
min(max_turns, 50) rows are selected, rows with an empty role or content
are dropped, the rows are projected to (role, content) pairs and reversed
into chronological order. -/
def get_recent_history (db : List MsgRow) (conversation_id : String)
    (max_turns max_age_minutes : NumArg) (now : Nat) :
    List (String × String) :=
  if conversation_id = "" then []
  else if max_turns.toLimit ≤ 0 then []
  else
    (((selectedRowsDesc db conversation_id max_age_minutes now
        (min max_turns.toLimit.toNat 50)).filter
      (fun r => r.role != "" && r.content != "")).map
      (fun r => (r.role, r.content))).reverse

/-- The row list underlying a get_recent_history result: the selected rows
with blank-role or blank-content rows dropped, still newest first. -/
def rowsOf (db : List MsgRow) (conversation_id : String)
    (max_turns max_age_minutes : NumArg) (now : Nat) : List MsgRow :=
  (selectedRowsDesc db conversation_id max_age_minutes now
    (min max_turns.toLimit.toNat 50)).filter
    (fun r => r.role != "" && r.content != "")

theorem grh_eq_rows (db : List MsgRow) (cid : String) (mt ma : NumArg)
    (now : Nat) (hcid : cid ≠ "") :
    get_recent_history db cid mt ma now =
      ((rowsOf db cid mt ma now).map (fun r => (r.role, r.content))).reverse := by
  unfold get_recent_history rowsOf
  rw [if_neg hcid]
  by_cases hl : mt.toLimit ≤ 0
  · rw [if_pos hl]
    have h0 : mt.toLimit.toNat = 0 := Int.toNat_of_nonpos hl
    simp [selectedRowsDesc, h0]
  · rw [if_neg hl]

theorem rowsOf_sublist_sorted (db : List MsgRow) (cid : String)
    (mt ma : NumArg) (now : Nat) :
    List.Pairwise createdDesc (rowsOf db cid mt ma now) := by
  unfold rowsOf selectedRowsDesc
  exact List.Pairwise.sublist
    ((List.filter_sublist _).trans (List.take_sublist _ _))
    (List.sorted_insertionSort createdDesc _)

/-- C2: for a non-empty conversation id, get_recent_history returns at most
min(maxTurns, 50) entries; the result is the chronological reversal of a
newest-first row list that is ascending by creation time once reversed;
with a positive maxAgeMinutes every underlying row is at least as recent
as now minus that bound; a non-positive, non-numeric or absent maxTurns
yields the empty sequence; and a non-positive or absent maxAgeMinutes
applies no age filter at all. -/
theorem C2_recent_history_spec (db : List MsgRow) (cid : String) (now : Nat)
    (hcid : cid ≠ "") :
    (∀ mt ma : NumArg,
      (get_recent_history db cid mt ma now).length ≤
        min mt.toLimit.toNat 50) ∧
    (∀ mt ma : NumArg,
      get_recent_history db cid mt ma now =
        ((rowsOf db cid mt ma now).map
          (fun r => (r.role, r.content))).reverse ∧
      List.Pairwise (fun a b : MsgRow => a.created_at ≤ b.created_at)
        (rowsOf db cid mt ma now).reverse) ∧
    (∀ (mt : NumArg) (a : Int), 0 < a →
      ∀ r ∈ rowsOf db cid mt (.num a) now, now - a.toNat ≤ r.created_at) ∧
    (∀ (ma : NumArg) (n : Int), n ≤ 0 →
      get_recent_history db cid (.num n) ma now = []) ∧
    (∀ ma : NumArg,
      get_recent_history db cid .nonNumeric ma now = [] ∧
      get_recent_history db cid .noneV ma now = []) ∧
    (∀ (mt : NumArg) (a : Int), a ≤ 0 →
      get_recent_history db cid mt (.num a) now =
        get_recent_history db cid mt .noneV now) := by
  refine ⟨?_, ?_, ?_, ?_, ?_, ?_⟩
  · intro mt ma
    rw [grh_eq_rows db cid mt ma now hcid]
    simp only [List.length_reverse, List.length_map]
    refine le_trans (List.length_filter_le _ _) ?_
    unfold selectedRowsDesc
    rw [List.length_take]
    exact min_le_left _ _
  · intro mt ma
    refine ⟨grh_eq_rows db cid mt ma now hcid, ?_⟩
    rw [List.pairwise_reverse]
    exact rowsOf_sublist_sorted db cid mt ma now
  · intro mt a ha r hr
    have hcond : (NumArg.num a).truthy = true ∧ 0 < (NumArg.num a).toAge := by
      constructor
      · simp only [NumArg.truthy, bne_iff_ne]
        omega
      · simpa [NumArg.toAge] using ha
    unfold rowsOf selectedRowsDesc at hr
    rw [if_pos hcond] at hr
    have hr2 := (List.filter_sublist _).subset hr
    have hr3 := List.take_subset _ _ hr2
    have hr4 :=
      (List.perm_insertionSort createdDesc _).subset hr3
    have hr5 := (List.mem_filter.mp hr4).2
    exact of_decide_eq_true hr5
  · intro ma n hn
    unfold get_recent_history
    rw [if_neg hcid, if_pos (by simpa [NumArg.toLimit] using hn)]
  · intro ma
    constructor
    · unfold get_recent_history
      rw [if_neg hcid, if_pos (by simp [NumArg.toLimit])]
    · unfold get_recent_history
      rw [if_neg hcid, if_pos (by simp [NumArg.toLimit])]
  · intro mt a ha
    have h1 : ¬((NumArg.num a).truthy = true ∧ 0 < (NumArg.num a).toAge) := by
      rintro ⟨-, h2⟩
      simp only [NumArg.toAge] at h2
      omega
    have h2 : ¬((NumArg.noneV).truthy = true ∧ 0 < (NumArg.noneV).toAge) := by
      rintro ⟨h, -⟩
      simp [NumArg.truthy] at h
    unfold get_recent_history selectedRowsDesc
    rw [if_neg h1, if_neg h2]

/-- Witness for C2 at a concrete conversation id and table. -/
theorem C2_recent_history_spec_witness :
    ("c1" ≠ "") ∧
    ((∀ mt ma : NumArg,
      (get_recent_history [] "c1" mt ma 7).length ≤
        min mt.toLimit.toNat 50) ∧
    (∀ mt ma : NumArg,
      get_recent_history [] "c1" mt ma 7 =
        ((rowsOf [] "c1" mt ma 7).map
          (fun r => (r.role, r.content))).reverse ∧
      List.Pairwise (fun a b : MsgRow => a.created_at ≤ b.created_at)
        (rowsOf [] "c1" mt ma 7).reverse) ∧
    (∀ (mt : NumArg) (a : Int), 0 < a →
      ∀ r ∈ rowsOf [] "c1" mt (.num a) 7, 7 - a.toNat ≤ r.created_at) ∧
    (∀ (ma : NumArg) (n : Int), n ≤ 0 →
      get_recent_history [] "c1" (.num n) ma 7 = []) ∧
    (∀ ma : NumArg,
      get_recent_history [] "c1" .nonNumeric ma 7 = [] ∧
      get_recent_history [] "c1" .noneV ma 7 = []) ∧
    (∀ (mt : NumArg) (a : Int), a ≤ 0 →
      get_recent_history [] "c1" mt (.num a) 7 =
        get_recent_history [] "c1" mt .noneV 7)) :=
  ⟨by decide, C2_recent_history_spec [] "c1" 7 (by decide)⟩

/-- A two-row conversation table in which the assistant turn has empty
content: both rows match the conversation id, but only one survives the
blank-row filter. -/
def sampleMsgDb : List MsgRow :=
  [⟨"c", "user", "hi", 1⟩, ⟨"c", "assistant", "", 2⟩]

/-- C10: every entry returned by get_recent_history has a non-empty role
and non-empty content, and because the blank-row filter runs after the
LIMIT, a table with min(maxTurns, 50) matching turns can still yield fewer
entries: in the sample table two rows match the conversation id, maxTurns
is 2, yet only one entry is returned. -/
theorem C10_history_filters_blank_rows :
    (∀ (db : List MsgRow) (cid : String) (mt ma : NumArg) (now : Nat)
      (e : String × String), e ∈ get_recent_history db cid mt ma now →
      e.1 ≠ "" ∧ e.2 ≠ "") ∧
    (sampleMsgDb.countP (fun r => r.conversation_id == "c") = 2 ∧
     get_recent_history sampleMsgDb "c" (.num 2) .noneV 0 =
       [("user", "hi")] ∧
     (get_recent_history sampleMsgDb "c" (.num 2) .noneV 0).length <
       min (NumArg.num 2).toLimit.toNat 50) := by
  constructor
  · intro db cid mt ma now e he
    by_cases hcid : cid = ""
    · unfold get_recent_history at he
      rw [if_pos hcid] at he
      simp at he
    · rw [grh_eq_rows db cid mt ma now hcid] at he
      simp only [List.mem_reverse, List.mem_map] at he
      obtain ⟨r, hr, hproj⟩ := he
      unfold rowsOf at hr
      have hp := (List.mem_filter.mp hr).2
      rw [Bool.and_eq_true, bne_iff_ne, bne_iff_ne] at hp
      rw [← hproj]
      exact hp
  · decide

/- Bot lifecycle (service.start_bot / service.stop_bot) and the BOT_CONFIG
   snapshot built on connect. -/

/-- The in-memory BOT_CONFIG dict built by start_bot (service.py 383-401). -/
structure BotConfig where
  token : String
  mention_only : Bool
  guild_allowlist : List String
  channel_allowlist : List String
  user_id : String
  target_user_id : Option String
  settings_instance_id : Option String
  service_secret : Option String
  rag_collection_id : Option String
  model : Option String
  persona_id : Option String
  history : List (String × JVal)
  config : List (String × JVal)
  api_url : String
  plugin_slug : String
  auth_token : String
  refresh_token : String

/-- The request body of POST /bot/connect (fields start_bot reads). -/
structure ConnectPayload where
  mention_only : Option Bool
  guild_allowlist : Option (List String)
  channel_allowlist : Option (List String)
  user_id : Option String
  target_user_id : Option String
  settings_instance_id : Option String
  service_secret : Option String
  rag_collection_id : Option String
  model : Option String
  persona_id : Option String
  history : Option (List (String × JVal))
  config : Option (List (String × JVal))
  api_url : Option String
  plugin_slug : Option String
  auth_token : Option String
  refresh_token : Option String

/-- The environment fallbacks read through os.getenv. -/
structure Env where
  braindrive_user_id : String
  braindrive_api_url : String
  braindrive_plugin_slug : String
  braindrive_auth_token : String
  braindrive_refresh_token : String

/-- Python "payload.get(k) or default" for strings: a missing or empty
value falls back to the default. -/
def orStr (v : Option String) (d : String) : String :=
  match v with
  | none => d
  | some s => if s = "" then d else s

/-- The BOT_CONFIG snapshot assembled from one connect request. -/
def buildConfig (env : Env) (token : String) (p : ConnectPayload) :
    BotConfig where
  token := token
  mention_only := p.mention_only.getD true
  guild_allowlist := p.guild_allowlist.getD []
  channel_allowlist := p.channel_allowlist.getD []
  user_id := orStr p.user_id env.braindrive_user_id
  target_user_id := p.target_user_id
  settings_instance_id := p.settings_instance_id
  service_secret := p.service_secret
  rag_collection_id := p.rag_collection_id
  model := p.model
  persona_id := p.persona_id
  history := p.history.getD []
  config := p.config.getD []
  api_url := orStr p.api_url env.braindrive_api_url
  plugin_slug := orStr p.plugin_slug env.braindrive_plugin_slug
  auth_token := orStr p.auth_token env.braindrive_auth_token
  refresh_token := orStr p.refresh_token env.braindrive_refresh_token

/-- The background session task handle (BOT_TASK). -/
structure TaskHandle where
  runId : Nat
  done : Bool
deriving DecidableEq

/-- The module-level mutable state of service.py: BOT_STATE, BOT_TASK,
BOT_CLIENT, BOT_CONFIG, plus a counter supplying fresh task ids. -/
structure ServiceState where
  enabled : Bool
  connected : Bool
  last_error : Option String
  task : Option TaskHandle
  client : Option Nat
  config : BotConfig
  nextRun : Nat

/-- BOT_TASK and not BOT_TASK.done(). -/
def taskRunning (st : ServiceState) : Bool :=
  match st.task with
  | some t => !t.done
  | none => false

/-- service.stop_bot: clear intent and connection flags and drop the task
and client handles (BOT_CONFIG itself is left in place, as in the code). -/
def stop_bot (st : ServiceState) : ServiceState :=
  { st with
    enabled := false
    connected := false
    task := none
    client := none }

/-- service.start_bot: with a live task and an unchanged credential this
only reaffirms enabled; otherwise any live task is stopped, the config is
rebuilt from the payload, runtime flags are reset and a fresh session task
is spawned (the client handle is set later by the task itself). -/
def start_bot (env : Env) (st : ServiceState) (token : String)
    (p : ConnectPayload) : ServiceState :=
  if taskRunning st && (st.config.token == token) then
    { st with enabled := true }
  else
    let st1 := if taskRunning st then stop_bot st else st
    { st1 with
      config := buildConfig env token p
      enabled := true
      connected := false
      last_error := none
      task := some ⟨st1.nextRun, false⟩
      nextRun := st1.nextRun + 1 }

/-- C9: when a session task is running and start_bot is called with the
credential already in use, the call only sets enabled; configuration,
task and client handle are untouched and the new payload is discarded. -/
theorem C9_start_same_token_noop (env : Env) (st : ServiceState)
    (tok : String) (p : ConnectPayload) (t : TaskHandle)
    (htask : st.task = some t) (hdone : t.done = false)
    (htok : st.config.token = tok) :
    start_bot env st tok p = { st with enabled := true } ∧
    (start_bot env st tok p).config = st.config ∧
    (start_bot env st tok p).task = st.task ∧
    (start_bot env st tok p).client = st.client ∧
    (start_bot env st tok p).enabled = true := by
  have hrun : taskRunning st = true := by
    simp [taskRunning, htask, hdone]
  have hcond : (taskRunning st && (st.config.token == tok)) = true := by
    simp [hrun, htok]
  unfold start_bot
  rw [if_pos hcond]
  exact ⟨rfl, rfl, rfl, rfl, rfl⟩

/-- A concrete running configuration for the C9 witness. -/
def runningConfig : BotConfig where
  token := "tok"
  mention_only := true
  guild_allowlist := []
  channel_allowlist := []
  user_id := "u1"
  target_user_id := none
  settings_instance_id := none
  service_secret := none
  rag_collection_id := none
  model := none
  persona_id := none
  history := []
  config := []
  api_url := "http://api"
  plugin_slug := "slug"
  auth_token := "a1"
  refresh_token := "r1"

/-- A concrete running service state for the C9 witness. -/
def runningState : ServiceState where
  enabled := false
  connected := true
  last_error := none
  task := some ⟨0, false⟩
  client := some 5
  config := runningConfig
  nextRun := 1

/-- A connect payload carrying a changed snapshot, for the C9 witness. -/
def changedPayload : ConnectPayload where
  mention_only := some false
  guild_allowlist := some ["g9"]
  channel_allowlist := some ["c9"]
  user_id := some "u9"
  target_user_id := some "t9"
  settings_instance_id := some "s9"
  service_secret := some "sec9"
  rag_collection_id := some "rag9"
  model := some "m9"
  persona_id := some "p9"
  history := some []
  config := some []
  api_url := some "http://other"
  plugin_slug := some "slug9"
  auth_token := some "a9"
  refresh_token := some "r9"

/-- A default environment for the C9 witness. -/
def emptyEnv : Env where
  braindrive_user_id := ""
  braindrive_api_url := ""
  braindrive_plugin_slug := ""
  braindrive_auth_token := ""
  braindrive_refresh_token := ""

/-- Witness for C9: reconnecting with the same token but a changed payload
leaves everything except the enabled flag unchanged. -/
theorem C9_start_same_token_noop_witness :
    runningState.task = some ⟨0, false⟩ ∧
    (⟨0, false⟩ : TaskHandle).done = false ∧
    runningState.config.token = "tok" ∧
    (start_bot emptyEnv runningState "tok" changedPayload =
      { runningState with enabled := true } ∧
    (start_bot emptyEnv runningState "tok" changedPayload).config =
      runningState.config ∧
    (start_bot emptyEnv runningState "tok" changedPayload).task =
      runningState.task ∧
    (start_bot emptyEnv runningState "tok" changedPayload).client =
      runningState.client ∧
    (start_bot emptyEnv runningState "tok" changedPayload).enabled = true) :=
  ⟨rfl, rfl, rfl,
   C9_start_same_token_noop emptyEnv runningState "tok" changedPayload
     ⟨0, false⟩ rfl rfl rfl⟩

/- Credential refresh and the 401 retry (service._refresh_auth_token and
   the relay call in service._handle_message, lines 267-283). -/

/-- Python str.rstrip for trailing slashes, as applied to api_url. -/
def rstripSlashes (s : String) : String :=
  String.mk ((s.data.reverse.dropWhile (· == '/')).reverse)

/-- Python truthiness of an optional string: None and "" are falsy. -/
def truthyStr : Option String → Bool
  | none => false
  | some s => s != ""

/-- Substring check on character lists, for the "401" in str(exc) test. -/
def listInfixOf (needle : List Char) : List Char → Bool
  | [] => needle.isEmpty
  | x :: xs => needle.isPrefixOf (x :: xs) || listInfixOf needle xs

/-- Python "needle in haystack" on strings. -/
def strContains (needle haystack : String) : Bool :=
  listInfixOf needle.data haystack.data

/-- The outcome of the POST to the auth refresh endpoint: an HTTP or
transport failure, or a parsed JSON body with optional access and refresh
tokens. -/
inductive RefreshResp where
  | httpFail
  | ok (access : Option String) (refresh : Option String)

/-- service._refresh_auth_token: refuses when no refresh token or api_url
is configured; on a good response stores a truthy access token and a
truthy rotated refresh token into the config; returns whether a truthy
access token arrived. -/
def refresh_auth_token (cfg : BotConfig) (resp : RefreshResp) :
    Bool × BotConfig :=
  if cfg.refresh_token = "" ∨ rstripSlashes cfg.api_url = "" then
    (false, cfg)
  else
    match resp with
    | .httpFail => (false, cfg)
    | .ok access refresh =>
      let cfg1 := if truthyStr access then
          { cfg with auth_token := access.getD "" }
        else cfg
      let cfg2 := if truthyStr refresh then
          { cfg1 with refresh_token := refresh.getD "" }
        else cfg1
      (truthyStr access, cfg2)

/-- The relay try/except of service._handle_message: send once with the
current auth token; on a RuntimeError whose text contains "401", run one
credential refresh and, if it succeeded, retry once with the token now in
the config; otherwise re-raise the original error. Returns the final
outcome, the final config, the number of refresh attempts and the number
of retry sends. -/
def relay_with_retry (cfg : BotConfig)
    (attempt : String → Except String JVal) (resp : RefreshResp) :
    Except String JVal × BotConfig × Nat × Nat :=
  match attempt cfg.auth_token with
  | .ok r => (.ok r, cfg, 0, 0)
  | .error e =>
    if strContains "401" e then
      match refresh_auth_token cfg resp with
      | (true, cfg1) => (attempt cfg1.auth_token, cfg1, 1, 1)
      | (false, cfg1) => (.error e, cfg1, 1, 0)
    else (.error e, cfg, 0, 0)

theorem relay_with_retry_error (cfg : BotConfig)
    (attempt : String → Except String JVal) (resp : RefreshResp) (e : String)
    (hfirst : attempt cfg.auth_token = .error e) :
    relay_with_retry cfg attempt resp =
      (if strContains "401" e then
        match refresh_auth_token cfg resp with
        | (true, cfg1) => (attempt cfg1.auth_token, cfg1, 1, 1)
        | (false, cfg1) => (.error e, cfg1, 1, 0)
      else (.error e, cfg, 0, 0)) := by
  unfold relay_with_retry
  rw [hfirst]

/-- C5 (amended): the handler classifies an authentication failure by the
substring "401" in the exception text. When the first relay attempt fails
with such a failure, a refresh credential is configured and the refresh
response carries a non-empty access token, exactly one refresh and exactly
one retry happen, the second attempt runs with the new token and its
result is returned, and the config holds the new access token (and the
rotated refresh token when one arrived); when the refresh fails, the
original failure propagates with no retry; a failure whose error text does
not contain "401" triggers neither refresh nor retry. -/
theorem C5_auth_refresh_retry (cfg : BotConfig)
    (attempt : String → Except String JVal) (e : String)
    (resp : RefreshResp)
    (hfirst : attempt cfg.auth_token = .error e) :
    (strContains "401" e = true → cfg.refresh_token ≠ "" →
      rstripSlashes cfg.api_url ≠ "" →
      ∀ newTok r, resp = .ok (some newTok) r → newTok ≠ "" →
        relay_with_retry cfg attempt resp =
          (attempt (refresh_auth_token cfg resp).2.auth_token,
            (refresh_auth_token cfg resp).2, 1, 1) ∧
        (refresh_auth_token cfg resp).2.auth_token = newTok ∧
        (∀ rt, r = some rt → rt ≠ "" →
          (refresh_auth_token cfg resp).2.refresh_token = rt) ∧
        (r = none →
          (refresh_auth_token cfg resp).2.refresh_token =
            cfg.refresh_token)) ∧
    (strContains "401" e = true → (refresh_auth_token cfg resp).1 = false →
      relay_with_retry cfg attempt resp =
        (.error e, (refresh_auth_token cfg resp).2, 1, 0)) ∧
    (strContains "401" e = false →
      relay_with_retry cfg attempt resp = (.error e, cfg, 0, 0)) := by
  refine ⟨?_, ?_, ?_⟩
  · intro h401 hrt hau newTok r hresp hnew
    subst hresp
    have haccess : truthyStr (some newTok) = true := by
      simp [truthyStr, hnew]
    have hrat : refresh_auth_token cfg (.ok (some newTok) r) =
        (true,
          if truthyStr r then
            { cfg with auth_token := newTok, refresh_token := r.getD "" }
          else { cfg with auth_token := newTok }) := by
      unfold refresh_auth_token
      rw [if_neg (by simp [hrt, hau])]
      simp only [haccess, if_true, Option.getD_some]
    refine ⟨?_, ?_, ?_, ?_⟩
    · rw [relay_with_retry_error cfg attempt _ e hfirst, if_pos h401, hrat]
    · rw [hrat]
      by_cases hr : truthyStr r <;> simp [hr]
    · intro rt hrteq hrtne
      subst hrteq
      have : truthyStr (some rt) = true := by simp [truthyStr, hrtne]
      rw [hrat]
      simp [this]
    · intro hrnone
      subst hrnone
      rw [hrat]
      simp [truthyStr]
  · intro h401 hfail
    have hsplit : refresh_auth_token cfg resp =
        (false, (refresh_auth_token cfg resp).2) := by
      conv_lhs => rw [← @Prod.mk.eta _ _ (refresh_auth_token cfg resp)]
      rw [hfail]
    rw [relay_with_retry_error cfg attempt resp e hfirst, if_pos h401,
      hsplit]
  · intro h401
    rw [relay_with_retry_error cfg attempt resp e hfirst,
      if_neg (by simp [h401])]

/-- A relay stub whose every attempt fails with a 401 status line. -/
def failing401 : String → Except String JVal :=
  fun _ => Except.error "BrainDrive request failed: 401 Unauthorized"

/-- A relay stub whose every attempt fails with HTTP status 500, with a
response body that happens to contain the digits 401. -/
def failing500 : String → Except String JVal :=
  fun _ => Except.error "BrainDrive request failed: 500 quota 401 exhausted"

/-- Counterexample for C5 as originally stated: the handler classifies an
authentication failure by the substring "401" in the exception text, not
by the HTTP status. With a configured refresh credential, a status-500
relay failure whose body text contains "401" does trigger one credential
refresh and one retry, so a non-401 relay failure is not guaranteed to
trigger no refresh and no retry. -/
theorem C5_non401_retry_counterexample :
    failing500 runningConfig.auth_token =
      Except.error "BrainDrive request failed: 500 quota 401 exhausted" ∧
    runningConfig.refresh_token ≠ "" ∧
    rstripSlashes runningConfig.api_url ≠ "" ∧
    (relay_with_retry runningConfig failing500
      (.ok (some "fresh") (some "rot"))).2.2.1 = 1 ∧
    (relay_with_retry runningConfig failing500
      (.ok (some "fresh") (some "rot"))).2.2.2 = 1 := by
  refine ⟨rfl, by decide, by decide, ?_, ?_⟩ <;> decide

/-- Witness for C5 with the running configuration and a 401-failing relay. -/
theorem C5_auth_refresh_retry_witness :
    failing401 runningConfig.auth_token =
      Except.error "BrainDrive request failed: 401 Unauthorized" ∧
    ((strContains "401" "BrainDrive request failed: 401 Unauthorized" =
        true →
      runningConfig.refresh_token ≠ "" →
      rstripSlashes runningConfig.api_url ≠ "" →
      ∀ newTok r,
        (RefreshResp.ok (some "fresh") (some "rot")) =
          RefreshResp.ok (some newTok) r → newTok ≠ "" →
        relay_with_retry runningConfig failing401
            (.ok (some "fresh") (some "rot")) =
          (failing401 (refresh_auth_token runningConfig
              (.ok (some "fresh") (some "rot"))).2.auth_token,
            (refresh_auth_token runningConfig
              (.ok (some "fresh") (some "rot"))).2, 1, 1) ∧
        (refresh_auth_token runningConfig
          (.ok (some "fresh") (some "rot"))).2.auth_token = newTok ∧
        (∀ rt, r = some rt → rt ≠ "" →
          (refresh_auth_token runningConfig
            (.ok (some "fresh") (some "rot"))).2.refresh_token = rt) ∧
        (r = none →
          (refresh_auth_token runningConfig
            (.ok (some "fresh") (some "rot"))).2.refresh_token =
            runningConfig.refresh_token)) ∧
    (strContains "401" "BrainDrive request failed: 401 Unauthorized" =
        true →
      (refresh_auth_token runningConfig
        (.ok (some "fresh") (some "rot"))).1 = false →
      relay_with_retry runningConfig failing401
          (.ok (some "fresh") (some "rot")) =
        (.error "BrainDrive request failed: 401 Unauthorized",
          (refresh_auth_token runningConfig
            (.ok (some "fresh") (some "rot"))).2, 1, 0)) ∧
    (strContains "401" "BrainDrive request failed: 401 Unauthorized" =
        false →
      relay_with_retry runningConfig failing401
          (.ok (some "fresh") (some "rot")) =
        (.error "BrainDrive request failed: 401 Unauthorized",
          runningConfig, 0, 0))) :=
  ⟨rfl,
   C5_auth_refresh_retry runningConfig failing401
     "BrainDrive request failed: 401 Unauthorized"
     (.ok (some "fresh") (some "rot")) rfl⟩

end DiscordService
